import Mathlib

/-!
Shallow embedding of the core of the ESP32 power-monitoring firmware
(PowerMonitor, DataManager, AiProcessor) and proofs of the specified
properties.  Floating-point arithmetic is idealised as exact rational
(or real, where square roots occur) arithmetic; the 32-bit unsigned
`millis` clock arithmetic is modelled with explicit wraparound modulo
2 to the 32.
-/

namespace EOnePlus

/-! ## Constants from Config.h -/

/-- Maximum number of readings to buffer (DATA_BUFFER_SIZE). -/
def DATA_BUFFER_SIZE : ℕ := 100

/-- Number of times to retry a send (MAX_RETRY_ATTEMPTS). -/
def MAX_RETRY_ATTEMPTS : ℕ := 3

/-- Window size for trend analysis (TREND_WINDOW_SIZE). -/
def TREND_WINDOW_SIZE : ℕ := 10

/-- Threshold for local anomaly detection (ANOMALY_THRESHOLD). -/
def ANOMALY_THRESHOLD : ℝ := 0.2

/-- Burden resistor value in ohms (CT_BURDEN_RESISTOR). -/
def CT_BURDEN_RESISTOR : ℝ := 33

/-- SCT-013-000 turns ratio (CT_TURNS_RATIO). -/
def CT_TURNS_RATIO : ℝ := 2000

/-- HTTP success status code (HTTP_CODE_OK). -/
def HTTP_CODE_OK : ℤ := 200

/-! ## PowerMonitor -/

/-- The private state of the PowerMonitor class.  Float fields are
idealised as rationals; `lastEnergyCalcTime` holds a `millis` reading. -/
structure PowerMonitorState where
  currentRMS : ℚ
  mainVoltage : ℚ
  powerWatts : ℚ
  energyKwh : ℚ
  lastEnergyCalcTime : ℕ
  calibrationFactor : ℚ
deriving DecidableEq

/-- The modulus of the 32-bit `unsigned long` type of the ESP32 target. -/
def UNSIGNED_LONG_MOD : ℕ := 2 ^ 32

/-- The expression `currentTime - lastEnergyCalcTime` of `updateEnergy`
computes in `unsigned long`, so subtraction wraps modulo 2 to the 32. -/
def unsignedLongSub (a b : ℕ) : ℕ :=
  (a + (UNSIGNED_LONG_MOD - b % UNSIGNED_LONG_MOD)) % UNSIGNED_LONG_MOD

/-- PowerMonitor::updateEnergy, with the current `millis()` reading passed
as an input.  Integrates `powerWatts` over the elapsed wall-clock delta
whenever the (wrapped) delta is positive. -/
def PowerMonitor.updateEnergy (s : PowerMonitorState) (currentTime : ℕ) :
    PowerMonitorState :=
  let timeDelta := unsignedLongSub currentTime s.lastEnergyCalcTime
  if 0 < timeDelta then
    let hoursElapsed : ℚ := (timeDelta : ℚ) / 3600000
    let energyIncrement : ℚ := s.powerWatts * hoursElapsed / 1000
    { s with
      energyKwh := s.energyKwh + energyIncrement
      lastEnergyCalcTime := currentTime }
  else
    s

/-- PowerMonitor::setVoltage: accepts only strictly positive values. -/
def PowerMonitor.setVoltage (s : PowerMonitorState) (v : ℚ) :
    PowerMonitorState :=
  if 0 < v then { s with mainVoltage := v } else s

/-- A sequence of `updateEnergy` calls.  Between two calls the monitoring
loop recomputes `powerWatts` from fresh sensor data, so each call is
modelled by the power value stored at the time of the call together with
the `millis()` reading seen by the call. -/
def PowerMonitor.runEnergyUpdates (s : PowerMonitorState)
    (calls : List (ℚ × ℕ)) : PowerMonitorState :=
  calls.foldl
    (fun st c => PowerMonitor.updateEnergy { st with powerWatts := c.1 } c.2) s

/-! ## DataManager -/

/-- The PowerData record of Config.h, float fields idealised as
rationals. -/
structure PowerData where
  timestamp : ℕ
  current : ℚ
  voltage : ℚ
  power : ℚ
  energy : ℚ
  anomaly : Bool
deriving DecidableEq, Inhabited

/-- DataManager::bufferData: append while below capacity; at capacity,
erase the oldest (front) reading and append the new one. -/
def DataManager.bufferData (dataBuffer : List PowerData) (data : PowerData) :
    List PowerData :=
  if dataBuffer.length < DATA_BUFFER_SIZE then
    dataBuffer ++ [data]
  else
    dataBuffer.tail ++ [data]

/-- The drain loop of DataManager::sendBufferedData: each buffered item
is sent in order, and the items whose send failed are collected in
order.  The result of the i-th send performed during the drain is given
by the transport oracle `outcome`. -/
def DataManager.collectFailed :
    List PowerData → (ℕ → Bool) → ℕ → List PowerData
  | [], _, _ => []
  | data :: rest, outcome, i =>
      if outcome i then DataManager.collectFailed rest outcome (i + 1)
      else data :: DataManager.collectFailed rest outcome (i + 1)

/-- DataManager::sendBufferedData: on an empty buffer report success;
otherwise try each item, replace the buffer with the failed
transmissions, and report whether the buffer shrank. -/
def DataManager.sendBufferedData (dataBuffer : List PowerData)
    (outcome : ℕ → Bool) : List PowerData × Bool :=
  if dataBuffer.isEmpty then (dataBuffer, true)
  else
    let failedTransmissions := DataManager.collectFailed dataBuffer outcome 0
    (failedTransmissions, failedTransmissions.length < dataBuffer.length)

/-- One operation on the delivery buffer: either bufferData with a new
reading, or sendBufferedData with a given transport oracle. -/
inductive BufferOp where
  | bufferIt (data : PowerData)
  | drain (outcome : ℕ → Bool)

/-- Apply one buffer operation. -/
def DataManager.applyOp (dataBuffer : List PowerData) :
    BufferOp → List PowerData
  | .bufferIt data => DataManager.bufferData dataBuffer data
  | .drain outcome => (DataManager.sendBufferedData dataBuffer outcome).1

/-- Run a sequence of buffer operations starting from the empty buffer. -/
def DataManager.runOps (ops : List BufferOp) : List PowerData :=
  ops.foldl DataManager.applyOp []

/-- Observable behaviour of one DataManager::sendJsonToBackend call: the
returned success flag, the number of POST attempts performed, and the
list of delays (in ms) inserted between consecutive attempts. -/
structure SendResult where
  success : Bool
  posts : ℕ
  delays : List ℕ
deriving DecidableEq

/-- The retry loop of DataManager::sendJsonToBackend.  `response i` is
the HTTP response code of the i-th POST (a connection error is any
nonpositive code; only equality with HTTP_CODE_OK matters).  On failure
the retry counter is incremented and, if budget remains, a delay of
500 * retryCount is inserted before the next attempt. -/
def DataManager.sendLoop (response : ℕ → ℤ) (retryCount posts : ℕ)
    (delays : List ℕ) : SendResult :=
  if retryCount < MAX_RETRY_ATTEMPTS then
    if response retryCount = HTTP_CODE_OK then
      { success := true, posts := posts + 1, delays := delays }
    else
      if retryCount + 1 < MAX_RETRY_ATTEMPTS then
        DataManager.sendLoop response (retryCount + 1) (posts + 1)
          (delays ++ [500 * (retryCount + 1)])
      else
        DataManager.sendLoop response (retryCount + 1) (posts + 1) delays
  else
    { success := false, posts := posts, delays := delays }
termination_by MAX_RETRY_ATTEMPTS - retryCount
decreasing_by all_goals omega

/-- DataManager::sendJsonToBackend, starting the retry loop with a zero
retry count, no attempts made, and no delays taken. -/
def DataManager.sendJsonToBackend (response : ℕ → ℤ) : SendResult :=
  DataManager.sendLoop response 0 0 []

/-! ## AiProcessor: anomaly detection (real-valued)

The AiProcessor history is modelled by the list of the power fields of
the stored PowerData records: the statistics below read only that field.
Float arithmetic is idealised over the reals so that the square root is
exact. -/

/-- AiProcessor::calculateMovingAverage: returns the argument on an
empty history, else the mean of the stored power values. -/
noncomputable def AiProcessor.calculateMovingAverage (dataHistory : List ℝ)
    (value : ℝ) : ℝ :=
  if dataHistory.isEmpty then value
  else dataHistory.sum / dataHistory.length

/-- AiProcessor::calculateStandardDeviation: 0 with fewer than two
entries, else the square root of the sum of squared differences from the
mean divided by (size - 1). -/
noncomputable def AiProcessor.calculateStandardDeviation
    (dataHistory : List ℝ) : ℝ :=
  if dataHistory.length < 2 then 0
  else
    let mean := dataHistory.sum / dataHistory.length
    let sumSqDiff := (dataHistory.map (fun p => (p - mean) * (p - mean))).sum
    Real.sqrt (sumSqDiff / ((dataHistory.length : ℝ) - 1))

/-- AiProcessor::detectAnomaly: false with fewer than 3 history entries,
else true exactly when the deviation of the current power from the
moving average exceeds stdDev * ANOMALY_THRESHOLD. -/
noncomputable def AiProcessor.detectAnomaly (dataHistory : List ℝ)
    (power : ℝ) : Bool :=
  if dataHistory.length < 3 then false
  else
    let avg := AiProcessor.calculateMovingAverage dataHistory power
    let stdDev := AiProcessor.calculateStandardDeviation dataHistory
    let deviation := |power - avg|
    if deviation > stdDev * ANOMALY_THRESHOLD then true else false

/-- Modelled from the spec wording: the sample mean of a window. -/
noncomputable def sampleMean (l : List ℝ) : ℝ := l.sum / l.length

/-- Modelled from the spec wording: the sample standard deviation of a
window, with the n - 1 divisor. -/
noncomputable def sampleStdDev (l : List ℝ) : ℝ :=
  Real.sqrt ((l.map (fun p => (p - sampleMean l) ^ 2)).sum /
    ((l.length : ℝ) - 1))

/-- PowerMonitor::calculateRMSCurrent, with the calibrationFactor field
passed explicitly: square root of the mean-squared voltage, converted by
the burden resistance and turns ratio, calibrated, and clamped to 0 when
strictly below the 0.05 A noise floor. -/
noncomputable def PowerMonitor.calculateRMSCurrent
    (calibrationFactor meanSquared : ℝ) : ℝ :=
  let rmsVoltage := Real.sqrt meanSquared
  let rmsCurrent :=
    rmsVoltage / CT_BURDEN_RESISTOR * CT_TURNS_RATIO * calibrationFactor
  if rmsCurrent < 0.05 then 0 else rmsCurrent

/-! ## AiProcessor: trend analysis and prediction (rational-valued)

No square root occurs in these routines, so they are embedded over the
rationals and stay executable.  As above, the history is the list of
stored power values. -/

/-- Outcome of AiProcessor::analyzeTrend, which the source reports on
the serial log: not enough data, stable, or a direction with the
reported percentage. -/
inductive TrendResult where
  | insufficientData
  | stable
  | increasing (percent : ℚ)
  | decreasing (percent : ℚ)
deriving DecidableEq

/-- AiProcessor::analyzeTrend: with fewer than TREND_WINDOW_SIZE entries
report insufficient data; otherwise average the first and second halves
of the window, form the percent change relative to the first half, and
classify. -/
def AiProcessor.analyzeTrend (dataHistory : List ℚ) : TrendResult :=
  if dataHistory.length < TREND_WINDOW_SIZE then .insufficientData
  else
    let firstAvg :=
      ((List.range (TREND_WINDOW_SIZE / 2)).map
        (fun i => dataHistory.getD i 0)).sum / ((TREND_WINDOW_SIZE / 2 : ℕ) : ℚ)
    let lastAvg :=
      ((List.range' (TREND_WINDOW_SIZE / 2)
          (TREND_WINDOW_SIZE - TREND_WINDOW_SIZE / 2)).map
        (fun i => dataHistory.getD i 0)).sum / ((TREND_WINDOW_SIZE / 2 : ℕ) : ℚ)
    let change := lastAvg - firstAvg
    let percentChange := change / firstAvg * 100
    if |percentChange| < 5 then .stable
    else if 0 < percentChange then .increasing percentChange
    else .decreasing (-percentChange)

/-- Modelled from the spec wording: the mean of the first half of the
trend window. -/
def firstHalfMean (l : List ℚ) : ℚ := (l.take 5).sum / 5

/-- Modelled from the spec wording: the mean of the second half of the
trend window. -/
def secondHalfMean (l : List ℚ) : ℚ := ((l.drop 5).take 5).sum / 5

/-- Modelled from the spec wording: percent change of the second-half
mean relative to the first-half mean. -/
def trendPercentChange (l : List ℚ) : ℚ :=
  (secondHalfMean l - firstHalfMean l) / firstHalfMean l * 100

/-- AiProcessor::updatePrediction, returning the new powerPrediction
value: with fewer than 2 entries keep the last power (or the previous
prediction when the history is empty); otherwise fit a least-squares
line through (i, power_i) and evaluate it at index n, clamping negative
predictions to 0. -/
def AiProcessor.updatePrediction (dataHistory : List ℚ)
    (powerPrediction : ℚ) : ℚ :=
  if dataHistory.length < 2 then
    dataHistory.getLast?.getD powerPrediction
  else
    let n : ℚ := dataHistory.length
    let sumX := ((List.range dataHistory.length).map (fun i => (i : ℚ))).sum
    let sumY := ((List.range dataHistory.length).map
      (fun i => dataHistory.getD i 0)).sum
    let sumXY := ((List.range dataHistory.length).map
      (fun (i : ℕ) => (i : ℚ) * dataHistory.getD i 0)).sum
    let sumX2 := ((List.range dataHistory.length).map
      (fun i => (i : ℚ) * (i : ℚ))).sum
    let slope := (n * sumXY - sumX * sumY) / (n * sumX2 - sumX * sumX)
    let intercept := (sumY - slope * sumX) / n
    let prediction := intercept + slope * n
    if prediction < 0 then 0 else prediction

/-- Modelled from the spec wording: the slope of the ordinary
least-squares regression line of the values against their position
index, in mean-centered form. -/
def olsSlope (ys : List ℚ) : ℚ :=
  let xbar : ℚ := ((List.range ys.length).map (fun i => (i : ℚ))).sum / ys.length
  let ybar : ℚ := ys.sum / ys.length
  (((List.range ys.length).map
    (fun (i : ℕ) => ((i : ℚ) - xbar) * (ys.getD i 0 - ybar))).sum) /
  (((List.range ys.length).map
    (fun i => ((i : ℚ) - xbar) * ((i : ℚ) - xbar))).sum)

/-- Modelled from the spec wording: the intercept of the ordinary
least-squares regression line, so that the line passes through the mean
point. -/
def olsIntercept (ys : List ℚ) : ℚ :=
  ys.sum / ys.length -
    olsSlope ys * (((List.range ys.length).map (fun i => (i : ℚ))).sum / ys.length)

/-- Concrete state refuting claim C2 as stated: the stored calculation
time is 5 and a huge power is stored, so a clock reading of 3 wraps to a
large positive 32-bit delta. -/
def cexMonitorState : PowerMonitorState :=
  { currentRMS := 0
    mainVoltage := 230
    powerWatts := 3600000000
    energyKwh := 0
    lastEnergyCalcTime := 5
    calibrationFactor := 1 }

/-! ## Helper lemmas -/

/-- The drain loop only ever keeps items of the buffer, so it never
lengthens it. -/
lemma DataManager.collectFailed_length_le (l : List PowerData)
    (outcome : ℕ → Bool) (i : ℕ) :
    (DataManager.collectFailed l outcome i).length ≤ l.length := by
  induction l generalizing i with
  | nil => simp [DataManager.collectFailed]
  | cons d rest ih =>
      unfold DataManager.collectFailed
      split
      · exact Nat.le_succ_of_le (ih _)
      · simpa using ih _

/-- bufferData preserves the capacity bound. -/
lemma DataManager.bufferData_length_le (dataBuffer : List PowerData)
    (data : PowerData) (h : dataBuffer.length ≤ DATA_BUFFER_SIZE) :
    (DataManager.bufferData dataBuffer data).length ≤ DATA_BUFFER_SIZE := by
  unfold DataManager.bufferData
  unfold DATA_BUFFER_SIZE at h ⊢
  split
  · simp only [List.length_append, List.length_cons, List.length_nil]
    omega
  · simp only [List.length_append, List.length_tail, List.length_cons,
      List.length_nil]
    omega

/-- Every single buffer operation preserves the capacity bound. -/
lemma DataManager.applyOp_length_le (dataBuffer : List PowerData)
    (op : BufferOp) (h : dataBuffer.length ≤ DATA_BUFFER_SIZE) :
    (DataManager.applyOp dataBuffer op).length ≤ DATA_BUFFER_SIZE := by
  cases op with
  | bufferIt data => exact DataManager.bufferData_length_le dataBuffer data h
  | drain outcome =>
      show (DataManager.sendBufferedData dataBuffer outcome).1.length ≤
        DATA_BUFFER_SIZE
      unfold DataManager.sendBufferedData
      split
      · exact h
      · dsimp only
        exact le_trans
          (DataManager.collectFailed_length_le dataBuffer outcome 0) h

/-- The drain loop collects exactly the entries whose send failed, in
their original relative order. -/
lemma DataManager.collectFailed_eq_filter (l : List PowerData)
    (outcome : ℕ → Bool) (i : ℕ) :
    DataManager.collectFailed l outcome i =
      ((List.enumFrom i l).filter (fun p => ! outcome p.1)).map Prod.snd := by
  induction l generalizing i with
  | nil => simp [DataManager.collectFailed]
  | cons d rest ih =>
      unfold DataManager.collectFailed
      by_cases h : outcome i
      · simp [List.enumFrom, List.filter_cons, h, ih]
      · simp [List.enumFrom, List.filter_cons, h, ih]

/-- Evaluation of the send loop when the first POST succeeds. -/
lemma DataManager.sendEval_ok0 (response : ℕ → ℤ)
    (h0 : response 0 = HTTP_CODE_OK) :
    DataManager.sendJsonToBackend response = ⟨true, 1, []⟩ := by
  unfold DataManager.sendJsonToBackend
  simp [DataManager.sendLoop, MAX_RETRY_ATTEMPTS, h0]

/-- Evaluation of the send loop when the first POST fails and the second
succeeds. -/
lemma DataManager.sendEval_ok1 (response : ℕ → ℤ)
    (h0 : response 0 ≠ HTTP_CODE_OK) (h1 : response 1 = HTTP_CODE_OK) :
    DataManager.sendJsonToBackend response = ⟨true, 2, [500]⟩ := by
  unfold DataManager.sendJsonToBackend
  simp [DataManager.sendLoop, MAX_RETRY_ATTEMPTS, h0, h1]

/-- Evaluation of the send loop when the first two POSTs fail and the
third succeeds. -/
lemma DataManager.sendEval_ok2 (response : ℕ → ℤ)
    (h0 : response 0 ≠ HTTP_CODE_OK) (h1 : response 1 ≠ HTTP_CODE_OK)
    (h2 : response 2 = HTTP_CODE_OK) :
    DataManager.sendJsonToBackend response = ⟨true, 3, [500, 1000]⟩ := by
  unfold DataManager.sendJsonToBackend
  simp [DataManager.sendLoop, MAX_RETRY_ATTEMPTS, h0, h1, h2]

/-- Evaluation of the send loop when all three POSTs fail. -/
lemma DataManager.sendEval_fail (response : ℕ → ℤ)
    (h0 : response 0 ≠ HTTP_CODE_OK) (h1 : response 1 ≠ HTTP_CODE_OK)
    (h2 : response 2 ≠ HTTP_CODE_OK) :
    DataManager.sendJsonToBackend response = ⟨false, 3, [500, 1000]⟩ := by
  unfold DataManager.sendJsonToBackend
  simp [DataManager.sendLoop, MAX_RETRY_ATTEMPTS, h0, h1, h2]

/-- With a nonempty history the moving average is the sample mean. -/
lemma AiProcessor.calculateMovingAverage_eq (l : List ℝ) (v : ℝ)
    (h : l ≠ []) :
    AiProcessor.calculateMovingAverage l v = sampleMean l := by
  unfold AiProcessor.calculateMovingAverage sampleMean
  rw [if_neg (by simpa [List.isEmpty_iff] using h)]

/-- With at least two entries the computed standard deviation is the
sample standard deviation with the n - 1 divisor. -/
lemma AiProcessor.calculateStandardDeviation_eq (l : List ℝ)
    (h : 2 ≤ l.length) :
    AiProcessor.calculateStandardDeviation l = sampleStdDev l := by
  unfold AiProcessor.calculateStandardDeviation sampleStdDev sampleMean
  rw [if_neg (by omega)]
  dsimp only
  simp only [← pow_two]

/-- A list of length 10 is exactly a ten-element literal. -/
lemma exists_ten_elems {α : Type _} (l : List α) (h : l.length = 10) :
    ∃ a0 a1 a2 a3 a4 a5 a6 a7 a8 a9 : α,
      l = [a0, a1, a2, a3, a4, a5, a6, a7, a8, a9] := by
  rcases l with _ | ⟨a0, l⟩
  · simp at h
  rcases l with _ | ⟨a1, l⟩
  · simp at h
  rcases l with _ | ⟨a2, l⟩
  · simp at h
  rcases l with _ | ⟨a3, l⟩
  · simp at h
  rcases l with _ | ⟨a4, l⟩
  · simp at h
  rcases l with _ | ⟨a5, l⟩
  · simp at h
  rcases l with _ | ⟨a6, l⟩
  · simp at h
  rcases l with _ | ⟨a7, l⟩
  · simp at h
  rcases l with _ | ⟨a8, l⟩
  · simp at h
  rcases l with _ | ⟨a9, l⟩
  · simp at h
  have hl : l = [] := by
    simp only [List.length_cons] at h
    exact List.length_eq_zero.mp (by omega)
  subst hl
  exact ⟨a0, a1, a2, a3, a4, a5, a6, a7, a8, a9, rfl⟩

/-- Clamping a rational below at zero, written as the source writes it,
is the max with zero. -/
lemma ite_neg_clamp (x : ℚ) : (if x < 0 then (0 : ℚ) else x) = max 0 x := by
  rcases lt_or_le x 0 with h | h
  · rw [if_pos h, max_eq_left h.le]
  · rw [if_neg (not_lt.mpr h), max_eq_right h]

/-! ## Theorems about PowerMonitor -/

/-- Claim C1: for every sequence of updateEnergy calls in which the stored
power value is nonnegative at each call, the cumulative energy value
energyKwh is monotonically non-decreasing: a single call never decreases
it, and along a call sequence the value after each call is at least the
value before that call. -/
theorem C1_energy_monotone :
    (∀ (s : PowerMonitorState) (t : ℕ), 0 ≤ s.powerWatts →
       s.energyKwh ≤ (PowerMonitor.updateEnergy s t).energyKwh) ∧
    (∀ (s : PowerMonitorState) (calls : List (ℚ × ℕ)),
       (∀ c ∈ calls, 0 ≤ c.1) → ∀ i : ℕ,
       (PowerMonitor.runEnergyUpdates s (calls.take i)).energyKwh ≤
         (PowerMonitor.runEnergyUpdates s (calls.take (i + 1))).energyKwh) := by
  have step : ∀ (s : PowerMonitorState) (t : ℕ), 0 ≤ s.powerWatts →
      s.energyKwh ≤ (PowerMonitor.updateEnergy s t).energyKwh := by
    intro s t hp
    unfold PowerMonitor.updateEnergy
    dsimp only
    split
    · have h0 : (0 : ℚ) ≤
          s.powerWatts * ((unsignedLongSub t s.lastEnergyCalcTime : ℚ) / 3600000) / 1000 := by
        apply div_nonneg _ (by norm_num)
        exact mul_nonneg hp (by positivity)
      dsimp
      linarith
    · exact le_rfl
  refine ⟨step, ?_⟩
  intro s calls hp i
  by_cases hi : i < calls.length
  · have htake : calls.take (i + 1) = calls.take i ++ [calls.get ⟨i, hi⟩] := by
      rw [List.take_succ]
      simp [List.getElem?_eq_getElem hi, List.get_eq_getElem]
    rw [htake]
    unfold PowerMonitor.runEnergyUpdates
    rw [List.foldl_append]
    simp only [List.foldl_cons, List.foldl_nil]
    exact step _ _ (hp _ (List.get_mem calls i hi))
  · rw [List.take_of_length_le (by omega), List.take_of_length_le (by omega)]

/-- Concrete witness for claim C1: a single call with power 3600000000 W
does not decrease the accumulated energy. -/
theorem C1_energy_monotone_witness :
    (⟨0, 230, 3600000000, 0, 5, 1⟩ : PowerMonitorState).energyKwh ≤
      (PowerMonitor.updateEnergy ⟨0, 230, 3600000000, 0, 5, 1⟩ 1000).energyKwh :=
  C1_energy_monotone.1 ⟨0, 230, 3600000000, 0, 5, 1⟩ 1000 (by norm_num)

/-- Counterexample to claim C2 as stated: calling updateEnergy with a
clock reading of 3, strictly below the stored calculation time 5, does
NOT leave energyKwh unchanged: the unsigned 32-bit subtraction wraps to
the positive delta 2 to the 32 minus 2, so the integration step runs. -/
theorem C2_counterexample :
    (3 : ℕ) ≤ cexMonitorState.lastEnergyCalcTime ∧
    (PowerMonitor.updateEnergy cexMonitorState 3).energyKwh ≠
      cexMonitorState.energyKwh := by
  constructor
  · decide
  · have hd : unsignedLongSub 3 5 = 4294967294 := by
      unfold unsignedLongSub UNSIGNED_LONG_MOD
      norm_num
    unfold PowerMonitor.updateEnergy cexMonitorState
    dsimp only
    rw [hd]
    norm_num

/-- Claim C2 (amended): for every call to updateEnergy in which the
current clock reading is EQUAL to the previously stored calculation time
(the wrapped 32-bit delta is zero), the energy integration step is
skipped and the whole state, in particular energyKwh, is unchanged; a
reading strictly below the stored time instead wraps to a large positive
delta and is not skipped. -/
theorem C2_zero_delta_skips (s : PowerMonitorState) (t : ℕ)
    (h : t = s.lastEnergyCalcTime) :
    PowerMonitor.updateEnergy s t = s := by
  have hz : ∀ a : ℕ, unsignedLongSub a a = 0 := by
    intro a
    unfold unsignedLongSub UNSIGNED_LONG_MOD
    have h32 : (2 : ℕ) ^ 32 = 4294967296 := by norm_num
    rw [h32]
    omega
  subst h
  unfold PowerMonitor.updateEnergy
  rw [hz]
  rfl

/-- Concrete witness for the amended claim C2: a call at exactly the
stored calculation time leaves the state unchanged. -/
theorem C2_zero_delta_skips_witness :
    PowerMonitor.updateEnergy cexMonitorState 5 = cexMonitorState :=
  C2_zero_delta_skips cexMonitorState 5 rfl

/-- Claim C10: setVoltage ignores every nonpositive argument, leaving the
whole state unchanged; for a positive argument it sets mainVoltage to
exactly that value and changes no other field. -/
theorem C10_setVoltage_frame (s : PowerMonitorState) (v : ℚ) :
    (v ≤ 0 → PowerMonitor.setVoltage s v = s) ∧
    (0 < v →
      (PowerMonitor.setVoltage s v).mainVoltage = v ∧
      (PowerMonitor.setVoltage s v).currentRMS = s.currentRMS ∧
      (PowerMonitor.setVoltage s v).powerWatts = s.powerWatts ∧
      (PowerMonitor.setVoltage s v).energyKwh = s.energyKwh ∧
      (PowerMonitor.setVoltage s v).lastEnergyCalcTime = s.lastEnergyCalcTime ∧
      (PowerMonitor.setVoltage s v).calibrationFactor = s.calibrationFactor) := by
  constructor
  · intro hv
    unfold PowerMonitor.setVoltage
    rw [if_neg (not_lt.mpr hv)]
  · intro hv
    unfold PowerMonitor.setVoltage
    rw [if_pos hv]
    exact ⟨rfl, rfl, rfl, rfl, rfl, rfl⟩

/-- Concrete witness for claim C10: setVoltage with argument 0 leaves a
concrete state unchanged. -/
theorem C10_setVoltage_frame_witness :
    PowerMonitor.setVoltage ⟨0, 230, 0, 0, 0, 1⟩ 0 = ⟨0, 230, 0, 0, 0, 1⟩ :=
  (C10_setVoltage_frame ⟨0, 230, 0, 0, 0, 1⟩ 0).1 (by norm_num)

/-! ## Theorems about DataManager -/

/-- Claim C3: starting from the empty buffer, no sequence of bufferData
and sendBufferedData operations ever pushes the delivery buffer above
capacity DATA_BUFFER_SIZE = 100; and bufferData on a buffer at capacity
removes the oldest entry and appends the new one, keeping the size at
exactly the capacity. -/
theorem C3_buffer_bounded :
    (∀ ops : List BufferOp,
       (DataManager.runOps ops).length ≤ DATA_BUFFER_SIZE) ∧
    (∀ (dataBuffer : List PowerData) (data : PowerData),
       dataBuffer.length = DATA_BUFFER_SIZE →
       DataManager.bufferData dataBuffer data = dataBuffer.tail ++ [data] ∧
       (DataManager.bufferData dataBuffer data).length = DATA_BUFFER_SIZE) := by
  constructor
  · intro ops
    have h : ∀ (ops : List BufferOp) (buf : List PowerData),
        buf.length ≤ DATA_BUFFER_SIZE →
        (ops.foldl DataManager.applyOp buf).length ≤ DATA_BUFFER_SIZE := by
      intro ops
      induction ops with
      | nil => intro buf hb; simpa using hb
      | cons op rest ih =>
          intro buf hb
          simp only [List.foldl_cons]
          exact ih _ (DataManager.applyOp_length_le buf op hb)
    unfold DataManager.runOps
    exact h ops [] (by simp)
  · intro dataBuffer data h
    have h100 : dataBuffer.length = 100 := by
      simpa [DATA_BUFFER_SIZE] using h
    constructor
    · unfold DataManager.bufferData
      rw [if_neg (by omega)]
    · unfold DataManager.bufferData
      rw [if_neg (by omega)]
      simp only [List.length_append, List.length_tail, List.length_cons,
        List.length_nil, DATA_BUFFER_SIZE]
      omega

/-- Concrete witness for claim C3: pushing a reading into a buffer that
already holds 100 readings drops the oldest and keeps the size at 100. -/
theorem C3_buffer_bounded_witness :
    DataManager.bufferData (List.replicate 100 default) default =
      (List.replicate 100 default).tail ++ [default] ∧
    (DataManager.bufferData (List.replicate 100 default) default).length =
      DATA_BUFFER_SIZE :=
  C3_buffer_bounded.2 (List.replicate 100 default) default
    (by simp [DATA_BUFFER_SIZE])

/-- Claim C4: sendBufferedData attempts each buffered reading
individually in FIFO order, and the buffer afterwards holds exactly the
readings whose send failed, in their original relative order: it equals
the original buffer enumerated in order, filtered to the positions whose
send outcome was a failure. -/
theorem C4_drain_fifo (dataBuffer : List PowerData) (outcome : ℕ → Bool) :
    (DataManager.sendBufferedData dataBuffer outcome).1 =
      (dataBuffer.enum.filter (fun p => ! outcome p.1)).map Prod.snd := by
  unfold DataManager.sendBufferedData
  by_cases h : dataBuffer.isEmpty
  · rw [if_pos h]
    rw [List.isEmpty_iff] at h
    subst h
    simp [List.enum]
  · rw [if_neg h]
    dsimp only
    rw [DataManager.collectFailed_eq_filter]
    rfl

/-- Claim C5: for every transport oracle, a single sendJsonToBackend
call performs at most MAX_RETRY_ATTEMPTS = 3 POST attempts; it returns
true exactly when some attempt within the budget receives HTTP_CODE_OK;
it stops at the first success (the first successful attempt index i
yields exactly i + 1 POSTs); and the delays inserted between consecutive
attempts are 500 * 1, 500 * 2, ... following the retry count, every
non-OK response being retried alike. -/
theorem C5_send_retry (response : ℕ → ℤ) :
    (DataManager.sendJsonToBackend response).posts ≤ MAX_RETRY_ATTEMPTS ∧
    ((DataManager.sendJsonToBackend response).success = true ↔
      ∃ i, i < MAX_RETRY_ATTEMPTS ∧ response i = HTTP_CODE_OK) ∧
    (∀ i, i < MAX_RETRY_ATTEMPTS → response i = HTTP_CODE_OK →
      (∀ j, j < i → response j ≠ HTTP_CODE_OK) →
      (DataManager.sendJsonToBackend response).posts = i + 1) ∧
    (DataManager.sendJsonToBackend response).delays =
      (List.range ((DataManager.sendJsonToBackend response).posts - 1)).map
        (fun k => 500 * (k + 1)) := by
  by_cases h0 : response 0 = HTTP_CODE_OK
  · rw [DataManager.sendEval_ok0 response h0]
    refine ⟨by norm_num [MAX_RETRY_ATTEMPTS], ?_, ?_, by simp⟩
    · constructor
      · intro _
        exact ⟨0, by norm_num [MAX_RETRY_ATTEMPTS], h0⟩
      · intro _
        rfl
    · intro i _ _ hmin
      rcases Nat.eq_zero_or_pos i with h | h
      · subst h; rfl
      · exact absurd h0 (hmin 0 h)
  · by_cases h1 : response 1 = HTTP_CODE_OK
    · rw [DataManager.sendEval_ok1 response h0 h1]
      refine ⟨by norm_num [MAX_RETRY_ATTEMPTS], ?_, ?_, ?_⟩
      · constructor
        · intro _
          exact ⟨1, by norm_num [MAX_RETRY_ATTEMPTS], h1⟩
        · intro _
          rfl
      · intro i hi hok hmin
        norm_num [MAX_RETRY_ATTEMPTS] at hi
        interval_cases i
        · exact absurd hok h0
        · rfl
        · exact absurd h1 (hmin 1 (by norm_num))
      · simp [List.range_succ]
    · by_cases h2 : response 2 = HTTP_CODE_OK
      · rw [DataManager.sendEval_ok2 response h0 h1 h2]
        refine ⟨by norm_num [MAX_RETRY_ATTEMPTS], ?_, ?_, ?_⟩
        · constructor
          · intro _
            exact ⟨2, by norm_num [MAX_RETRY_ATTEMPTS], h2⟩
          · intro _
            rfl
        · intro i hi hok hmin
          norm_num [MAX_RETRY_ATTEMPTS] at hi
          interval_cases i
          · exact absurd hok h0
          · exact absurd hok h1
          · rfl
        · simp [List.range_succ]
      · rw [DataManager.sendEval_fail response h0 h1 h2]
        refine ⟨by norm_num [MAX_RETRY_ATTEMPTS], ?_, ?_, ?_⟩
        · constructor
          · intro hfalse
            exact absurd hfalse (by simp)
          · rintro ⟨i, hi, hok⟩
            norm_num [MAX_RETRY_ATTEMPTS] at hi
            interval_cases i
            · exact absurd hok h0
            · exact absurd hok h1
            · exact absurd hok h2
        · intro i hi hok _
          norm_num [MAX_RETRY_ATTEMPTS] at hi
          interval_cases i
          · exact absurd hok h0
          · exact absurd hok h1
          · exact absurd hok h2
        · simp [List.range_succ]

/-- Concrete witness for claim C5: with a transport that fails the first
POST with status 404 and accepts the second, the call performs exactly
two POST attempts. -/
theorem C5_send_retry_witness :
    (DataManager.sendJsonToBackend
        (fun i => if i = 1 then 200 else 404)).posts = 1 + 1 :=
  (C5_send_retry (fun i => if i = 1 then 200 else 404)).2.2.1 1
    (by norm_num [MAX_RETRY_ATTEMPTS])
    (by norm_num [HTTP_CODE_OK])
    (by
      intro j hj
      interval_cases j
      norm_num [HTTP_CODE_OK])

/-- Claim C6: with fewer than 3 history entries detectAnomaly always
returns false; with at least 3 entries it returns true exactly when the
absolute deviation of the current power from the sample mean of the
window exceeds ANOMALY_THRESHOLD = 0.2 times the sample standard
deviation (n - 1 divisor) of the window. -/
theorem C6_detect_anomaly (dataHistory : List ℝ) (power : ℝ) :
    (dataHistory.length < 3 →
      AiProcessor.detectAnomaly dataHistory power = false) ∧
    (3 ≤ dataHistory.length →
      (AiProcessor.detectAnomaly dataHistory power = true ↔
        |power - sampleMean dataHistory| >
          ANOMALY_THRESHOLD * sampleStdDev dataHistory)) := by
  constructor
  · intro h
    unfold AiProcessor.detectAnomaly
    rw [if_pos h]
  · intro h
    have hne : dataHistory ≠ [] := List.length_pos.mp (by omega)
    unfold AiProcessor.detectAnomaly
    rw [if_neg (by omega)]
    dsimp only
    rw [AiProcessor.calculateMovingAverage_eq dataHistory power hne,
      AiProcessor.calculateStandardDeviation_eq dataHistory (by omega),
      mul_comm (sampleStdDev dataHistory) ANOMALY_THRESHOLD]
    by_cases hc : |power - sampleMean dataHistory| >
        ANOMALY_THRESHOLD * sampleStdDev dataHistory
    · simp [hc]
    · simp [hc]

/-- Concrete witness for claim C6: on the three-entry window of powers
1, 2, 3 the detector agrees with the sample statistics of that window. -/
theorem C6_detect_anomaly_witness :
    AiProcessor.detectAnomaly [1, 2, 3] 10 = true ↔
      |(10 : ℝ) - sampleMean [1, 2, 3]| >
        ANOMALY_THRESHOLD * sampleStdDev [1, 2, 3] :=
  (C6_detect_anomaly [1, 2, 3] 10).2 (by norm_num)

/-- Claim C7: the computed RMS current is forced to exactly 0 whenever
the raw value sqrt(meanSquared) / 33 * 2000 * calibrationFactor is
strictly below the 0.05 A noise floor, and is returned unchanged
otherwise; in particular meanSquared = 0.01 with calibrationFactor = 1
yields 0.1 / 33 * 2000 amps. -/
theorem C7_noise_floor (calibrationFactor meanSquared : ℝ) :
    (Real.sqrt meanSquared / 33 * 2000 * calibrationFactor < 0.05 →
      PowerMonitor.calculateRMSCurrent calibrationFactor meanSquared = 0) ∧
    (0.05 ≤ Real.sqrt meanSquared / 33 * 2000 * calibrationFactor →
      PowerMonitor.calculateRMSCurrent calibrationFactor meanSquared =
        Real.sqrt meanSquared / 33 * 2000 * calibrationFactor) ∧
    PowerMonitor.calculateRMSCurrent 1 0.01 = 0.1 / 33 * 2000 := by
  refine ⟨?_, ?_, ?_⟩
  · intro h
    unfold PowerMonitor.calculateRMSCurrent CT_BURDEN_RESISTOR CT_TURNS_RATIO
    dsimp only
    rw [if_pos h]
  · intro h
    unfold PowerMonitor.calculateRMSCurrent CT_BURDEN_RESISTOR CT_TURNS_RATIO
    dsimp only
    rw [if_neg (not_lt.mpr h)]
  · have hs : Real.sqrt 0.01 = 0.1 := by
      rw [show (0.01 : ℝ) = 0.1 ^ 2 by norm_num]
      exact Real.sqrt_sq (by norm_num)
    unfold PowerMonitor.calculateRMSCurrent CT_BURDEN_RESISTOR CT_TURNS_RATIO
    dsimp only
    rw [hs, if_neg (by norm_num)]
    norm_num

/-- Concrete witness for claim C7: a zero mean-squared input with a zero
calibration factor is below the noise floor and is clamped to exactly
0. -/
theorem C7_noise_floor_witness :
    PowerMonitor.calculateRMSCurrent 0 0 = 0 :=
  (C7_noise_floor 0 0).1 (by norm_num [Real.sqrt_zero])

/-- Claim C8: analyzeTrend reports insufficient data for every window
with fewer than TREND_WINDOW_SIZE = 10 entries; for a window of exactly
10 entries with nonzero first-half mean it classifies the percent change
of the second-half mean against the first-half mean (below 5 percent in
magnitude: stable; positive: increasing with the percentage; negative:
decreasing with the percentage); and the example window of five 100 W
readings followed by five 200 W readings is classified increasing with
percent change 100. -/
theorem C8_analyze_trend (dataHistory : List ℚ) :
    (dataHistory.length < TREND_WINDOW_SIZE →
      AiProcessor.analyzeTrend dataHistory = .insufficientData) ∧
    (dataHistory.length = TREND_WINDOW_SIZE →
      firstHalfMean dataHistory ≠ 0 →
      AiProcessor.analyzeTrend dataHistory =
        (if |trendPercentChange dataHistory| < 5 then .stable
         else if 0 < trendPercentChange dataHistory then
           .increasing (trendPercentChange dataHistory)
         else .decreasing (-trendPercentChange dataHistory))) ∧
    AiProcessor.analyzeTrend
        [100, 100, 100, 100, 100, 200, 200, 200, 200, 200] =
      .increasing 100 := by
  refine ⟨?_, ?_, ?_⟩
  · intro h
    unfold AiProcessor.analyzeTrend
    rw [if_pos h]
  · intro hlen hfm
    obtain ⟨a0, a1, a2, a3, a4, a5, a6, a7, a8, a9, rfl⟩ :=
      exists_ten_elems dataHistory (by simpa [TREND_WINDOW_SIZE] using hlen)
    unfold AiProcessor.analyzeTrend TREND_WINDOW_SIZE trendPercentChange
      firstHalfMean secondHalfMean
    rw [if_neg (by simp)]
    dsimp only
    simp only [show (10 : ℕ) / 2 = 5 from rfl,
      show (10 : ℕ) - 5 = 5 from rfl,
      show List.range 5 = [0, 1, 2, 3, 4] from by decide,
      show List.range' 5 5 = [5, 6, 7, 8, 9] from by decide,
      show ([0, 1, 2, 3, 4] : List ℕ).map
          (fun i =>
            ([a0, a1, a2, a3, a4, a5, a6, a7, a8, a9] : List ℚ).getD i 0) =
          [a0, a1, a2, a3, a4] from rfl,
      show ([5, 6, 7, 8, 9] : List ℕ).map
          (fun i =>
            ([a0, a1, a2, a3, a4, a5, a6, a7, a8, a9] : List ℚ).getD i 0) =
          [a5, a6, a7, a8, a9] from rfl,
      show ([a0, a1, a2, a3, a4, a5, a6, a7, a8, a9] : List ℚ).take 5 =
          [a0, a1, a2, a3, a4] from rfl,
      show (([a0, a1, a2, a3, a4, a5, a6, a7, a8, a9] : List ℚ).drop 5).take 5 =
          [a5, a6, a7, a8, a9] from rfl,
      Nat.cast_ofNat]
  · unfold AiProcessor.analyzeTrend TREND_WINDOW_SIZE
    rw [if_neg (by simp)]
    dsimp only
    simp only [show (10 : ℕ) / 2 = 5 from rfl,
      show (10 : ℕ) - 5 = 5 from rfl,
      show List.range 5 = [0, 1, 2, 3, 4] from by decide,
      show List.range' 5 5 = [5, 6, 7, 8, 9] from by decide,
      show ([0, 1, 2, 3, 4] : List ℕ).map
          (fun i =>
            ([100, 100, 100, 100, 100, 200, 200, 200, 200, 200] :
              List ℚ).getD i 0) =
          [100, 100, 100, 100, 100] from rfl,
      show ([5, 6, 7, 8, 9] : List ℕ).map
          (fun i =>
            ([100, 100, 100, 100, 100, 200, 200, 200, 200, 200] :
              List ℚ).getD i 0) =
          [200, 200, 200, 200, 200] from rfl,
      Nat.cast_ofNat]
    norm_num

/-- Concrete witness for claim C8: a nine-element window is below the
trend window size and reports insufficient data. -/
theorem C8_analyze_trend_witness :
    AiProcessor.analyzeTrend [1, 1, 1, 1, 1, 1, 1, 1, 1] =
      TrendResult.insufficientData :=
  (C8_analyze_trend [1, 1, 1, 1, 1, 1, 1, 1, 1]).1
    (by simp [TREND_WINDOW_SIZE])

/-- Claim C9: on a full history window of TREND_WINDOW_SIZE = 10 entries
the updated prediction equals the ordinary least-squares regression line
of power against position index 0..9 evaluated at index 10, clamped
below at 0; consequently the stored prediction for a full window is
never negative. -/
theorem C9_ols_prediction (dataHistory : List ℚ) (powerPrediction : ℚ)
    (h : dataHistory.length = TREND_WINDOW_SIZE) :
    AiProcessor.updatePrediction dataHistory powerPrediction =
      max 0 (olsIntercept dataHistory +
        olsSlope dataHistory * (dataHistory.length : ℚ)) ∧
    0 ≤ AiProcessor.updatePrediction dataHistory powerPrediction := by
  obtain ⟨a0, a1, a2, a3, a4, a5, a6, a7, a8, a9, rfl⟩ :=
    exists_ten_elems dataHistory (by simpa [TREND_WINDOW_SIZE] using h)
  have hmain : AiProcessor.updatePrediction
      [a0, a1, a2, a3, a4, a5, a6, a7, a8, a9] powerPrediction =
      max 0 (olsIntercept [a0, a1, a2, a3, a4, a5, a6, a7, a8, a9] +
        olsSlope [a0, a1, a2, a3, a4, a5, a6, a7, a8, a9] *
          (([a0, a1, a2, a3, a4, a5, a6, a7, a8, a9] : List ℚ).length : ℚ)) := by
    unfold AiProcessor.updatePrediction olsIntercept olsSlope
    rw [if_neg (by simp)]
    dsimp only
    simp only [show ([a0, a1, a2, a3, a4, a5, a6, a7, a8, a9] : List ℚ).length = 10
        from rfl,
      show List.range 10 = [0, 1, 2, 3, 4, 5, 6, 7, 8, 9] from by decide,
      List.map_cons, List.map_nil, List.sum_cons, List.sum_nil,
      show ([a0, a1, a2, a3, a4, a5, a6, a7, a8, a9] : List ℚ).getD 0 0 = a0 from rfl,
      show ([a0, a1, a2, a3, a4, a5, a6, a7, a8, a9] : List ℚ).getD 1 0 = a1 from rfl,
      show ([a0, a1, a2, a3, a4, a5, a6, a7, a8, a9] : List ℚ).getD 2 0 = a2 from rfl,
      show ([a0, a1, a2, a3, a4, a5, a6, a7, a8, a9] : List ℚ).getD 3 0 = a3 from rfl,
      show ([a0, a1, a2, a3, a4, a5, a6, a7, a8, a9] : List ℚ).getD 4 0 = a4 from rfl,
      show ([a0, a1, a2, a3, a4, a5, a6, a7, a8, a9] : List ℚ).getD 5 0 = a5 from rfl,
      show ([a0, a1, a2, a3, a4, a5, a6, a7, a8, a9] : List ℚ).getD 6 0 = a6 from rfl,
      show ([a0, a1, a2, a3, a4, a5, a6, a7, a8, a9] : List ℚ).getD 7 0 = a7 from rfl,
      show ([a0, a1, a2, a3, a4, a5, a6, a7, a8, a9] : List ℚ).getD 8 0 = a8 from rfl,
      show ([a0, a1, a2, a3, a4, a5, a6, a7, a8, a9] : List ℚ).getD 9 0 = a9 from rfl]
    rw [ite_neg_clamp]
    congr 1
    norm_num
    ring
  refine ⟨hmain, ?_⟩
  rw [hmain]
  exact le_max_left 0 _

/-- Concrete witness for claim C9: on the constant full window of ten
1000 W readings the prediction is the clamped regression value and is
nonnegative. -/
theorem C9_ols_prediction_witness :
    0 ≤ AiProcessor.updatePrediction
      [1000, 1000, 1000, 1000, 1000, 1000, 1000, 1000, 1000, 1000] 0 :=
  (C9_ols_prediction
    [1000, 1000, 1000, 1000, 1000, 1000, 1000, 1000, 1000, 1000] 0
    (by simp [TREND_WINDOW_SIZE])).2

end EOnePlus
